import Mathlib

/-!
Online attendance system: the capture-and-verify client.

A shallow embedding of the two React screens of the repository,
`frontend/src/pages/AdminPanel.jsx` and `frontend/src/pages/AttendanceSystem.jsx`.

Conventions of the embedding.

* A component is a record of its `useState` cells and `useRef` cells, together with
  the part of the browser it acts on: the tracks of acquired media streams that are
  still running, and the log of HTTP requests sent.
* An event handler is a function from state to state.  A render takes place between
  two events, so a handler that is called from the interface reads the current state
  through its closure.  Where a function is called through the closure of an older
  render, the value it captured is an explicit argument.
* The value of an asynchronous call is an argument of the function that continues
  after it.  A call of `getUserMedia` or of `canvas.toBlob` that has been made and has
  not completed is recorded in the state, and its completion is an event of its own:
  other events can take place in between.  An `axios` request and the handling of its
  response are one event.
* Which handler can be invoked in which state is read off the JSX: a button that is
  not rendered, or is disabled, cannot be clicked.
-/

namespace Attendance

/-- A `MediaStream` as returned by `navigator.mediaDevices.getUserMedia`: its tracks,
named by numbers. -/
structure MediaStream where
  id : Nat
  tracks : List Nat
deriving DecidableEq, Repr

/-- A stream with two tracks, used in the examples. -/
def camera : MediaStream := { id := 1, tracks := [7, 8] }

/-- A second stream, used in the examples. -/
def secondCamera : MediaStream := { id := 2, tracks := [9] }

/-- The value of `await navigator.mediaDevices.getUserMedia(...)`: a stream, or a
rejection carrying `err.message`. -/
inductive MediaResult where
  | ok (stream : MediaStream)
  | error (message : String)
deriving DecidableEq, Repr

/-- A `File` built by `new File([blob], name, ...)`. -/
structure File where
  blob : Nat
  name : String
deriving DecidableEq, Repr

/-- The value of an `axios` call that returns data: the response body, or a failure. -/
inductive Fetched (α : Type) where
  | ok (data : α)
  | failed
deriving DecidableEq, Repr

/-- The value of the `axios.post` of a form: success, or a failure whose
`err.response?.data?.detail` is the given optional string. -/
inductive Posted where
  | ok
  | failed (detail : Option String)
deriving DecidableEq, Repr

/-- JavaScript `detail || fallback` for an optional string: `undefined` and the empty
string are falsy. -/
def orDefault (detail : Option String) (fallback : String) : String :=
  match detail with
  | some d => if d = "" then fallback else d
  | none => fallback

/-- `tracks.forEach(track => track.stop())` on the running tracks of the browser:
the tracks of the stream are no longer running. -/
def stopTracks (stream : MediaStream) (live : List Nat) : List Nat :=
  live.filter (fun t => !stream.tracks.contains t)

/-- JavaScript `xs.filter((_, i) => i !== index)`. -/
def filterIndexNe {α : Type} (xs : List α) (index : Nat) : List α :=
  (xs.enum.filter (fun p => p.1 != index)).map Prod.snd

/-! ## AdminPanel.jsx -/

namespace AdminPanel

/-- The values `activeTab` takes: the four sidebar buttons. -/
inductive Tab where
  | register
  | employees
  | attendance
  | status
deriving DecidableEq, Repr

/-- The enrollment form, `newEmployee`. -/
structure Employee where
  employee_id : String
  full_name : String
  email : String
  department : String
  position : String
deriving DecidableEq, Repr

/-- An attendance record as returned by `GET /admin/attendance`. -/
structure AttendanceRecord where
  timestamp : String
  employee_id : String
  employee_name : String
  status : String
deriving DecidableEq, Repr

/-- The banner `message`. -/
structure Message where
  type : String
  text : String
deriving DecidableEq, Repr

/-- An element of `capturedImages`: `{ file, url }`. -/
structure CapturedImage where
  file : File
  url : String
deriving DecidableEq, Repr

/-- The HTTP requests the panel sends.  The multipart body of the registration
request is its `employee_data` field (the record that is JSON-encoded) and its
repeated `images` fields, in the order they were appended. -/
inductive Request where
  | registerEmployee (employee_data : Employee) (images : List File)
  | getEmployees
  | getAttendance (date : Option String)
  | getEmployeeStatus (employee_id : String)
  | deleteEmployee (employee_id : String)
deriving DecidableEq, Repr

/-- The state of a mounted `AdminPanel`: its `useState` cells, `streamRef`, and the
browser state it acts on (`liveTracks`: the running tracks of the streams the panel
has acquired; `requests`: the requests sent so far, oldest first; `objectUrls`: the
URLs made by `URL.createObjectURL` that have not been released, oldest first;
`pendingGetUserMedia`: the number of calls of `getUserMedia` that have not settled;
`pendingToBlob`: for each call of `canvas.toBlob` whose callback has not run, oldest
first, the length of `capturedImages` in the render whose `captureImage` made the
call, which is the value the callback reads through its closure at line 105). -/
structure State where
  activeTab : Tab
  employees : List Employee
  attendance : List AttendanceRecord
  dateFilter : String
  loading : Bool
  newEmployee : Employee
  enrollmentImages : List File
  capturedImages : List CapturedImage
  isCameraActive : Bool
  message : Message
  streamRef : Option MediaStream
  liveTracks : List Nat
  requests : List Request
  objectUrls : List String
  pendingGetUserMedia : Nat
  pendingToBlob : List Nat
deriving DecidableEq, Repr

/-- The form with every field empty. -/
def emptyEmployee : Employee :=
  { employee_id := "", full_name := "", email := "", department := "", position := "" }

/-- The state after the first render (lines 8-29). -/
def init : State :=
  { activeTab := .register, employees := [], attendance := [], dateFilter := "",
    loading := false, newEmployee := emptyEmployee, enrollmentImages := [],
    capturedImages := [], isCameraActive := false,
    message := { type := "", text := "" }, streamRef := none,
    liveTracks := [], requests := [], objectUrls := [],
    pendingGetUserMedia := 0, pendingToBlob := [] }

/-- The function `startCamera` (lines 55-64) up to its `await`: it calls
`getUserMedia` and writes no cell before the promise settles. -/
def startCameraCall (s : State) : State :=
  { s with pendingGetUserMedia := s.pendingGetUserMedia + 1 }

/-- The function `startCamera` (lines 66-78) from its `await` on, given the value of
`getUserMedia`. -/
def startCamera (s : State) (r : MediaResult) : State :=
  match r with
  | .ok stream =>
    { s with liveTracks := s.liveTracks ++ stream.tracks,
             streamRef := some stream, isCameraActive := true }
  | .error m =>
    { s with message :=
        { type := "error",
          text := "Failed to access camera: " ++ m ++ ". Please check browser permissions." } }

/-- The function `stopCamera` (lines 81-87). -/
def stopCamera (s : State) : State :=
  let s1 : State :=
    match s.streamRef with
    | some stream => { s with liveTracks := stopTracks stream s.liveTracks, streamRef := none }
    | none => s
  { s1 with isCameraActive := false }

/-- Whether `videoRef.current` is set: the `<video>` element is rendered inside
`activeTab === 'register'` and `isCameraActive` (lines 292, 400-408). -/
def videoMounted (s : State) : Bool :=
  s.activeTab == .register && s.isCameraActive

/-- Whether `canvasRef.current` is set: the `<canvas>` is rendered inside
`activeTab === 'register'` (lines 292, 466). -/
def canvasMounted (s : State) : Bool :=
  s.activeTab == .register

/-- The callback that `captureImage` passes to `canvas.toBlob` (lines 100-109):
`blob` is the encoded frame, `now` the value of `Date.now()` and `url` the value of
`URL.createObjectURL(blob)`.  The two lists are updated from their current value
(`prev => ...`); the test of line 105 reads `capturedImages.length` through the
closure, and `length` is that value: the length of the batch in the render whose
`captureImage` was called. -/
def toBlobCallback (s : State) (length blob now : Nat) (url : String) : State :=
  let file : File := { blob := blob, name := "capture_" ++ toString now ++ ".jpg" }
  let s1 : State :=
    { s with capturedImages := s.capturedImages ++ [{ file := file, url := url }],
             enrollmentImages := s.enrollmentImages ++ [file],
             objectUrls := s.objectUrls ++ [url] }
  if length + 1 ≥ 5 then
    { stopCamera s1 with
        message := { type := "success", text := "5 images captured! Ready to register." } }
  else s1

/-- The function `captureImage` (lines 89-100) up to its call of `canvas.toBlob`: the
callback is queued together with the length of the batch it has captured. -/
def captureImageCall (s : State) : State :=
  if !videoMounted s || !canvasMounted s then s
  else { s with pendingToBlob := s.pendingToBlob ++ [s.capturedImages.length] }

/-- A call of `captureImage` whose `toBlob` callback runs before any other event: the
length the callback has captured is then the current one. -/
def captureImage (s : State) (blob now : Nat) (url : String) : State :=
  if !videoMounted s || !canvasMounted s then s
  else toBlobCallback s s.capturedImages.length blob now url

/-- The function `removeImage` (lines 112-115). -/
def removeImage (s : State) (index : Nat) : State :=
  { s with capturedImages := filterIndexNe s.capturedImages index,
           enrollmentImages := filterIndexNe s.enrollmentImages index }

/-- The function `resetCapture` (lines 117-121). -/
def resetCapture (s : State) : State :=
  stopCamera { s with capturedImages := [], enrollmentImages := [] }

/-- The function `fetchEmployees` (lines 123-136), given the value of the request. -/
def fetchEmployees (s : State) (r : Fetched (List Employee)) : State :=
  let s1 : State := { s with requests := s.requests ++ [.getEmployees] }
  match r with
  | .ok data => { s1 with employees := data, loading := false }
  | .failed =>
    { s1 with message := { type := "error", text := "Failed to load employees" },
              loading := false }

/-- The function `fetchAttendance` (lines 138-149), given the value of the request. -/
def fetchAttendance (s : State) (r : Fetched (List AttendanceRecord)) : State :=
  let date : Option String := if s.dateFilter = "" then none else some s.dateFilter
  let s1 : State := { s with requests := s.requests ++ [.getAttendance date] }
  match r with
  | .ok data => { s1 with attendance := data, loading := false }
  | .failed => { s1 with loading := false }

/-- The function `handleImageUpload` (lines 160-163).  No element of the JSX refers
to it. -/
def handleImageUpload (s : State) (files : List File) : State :=
  { s with enrollmentImages := files }

/-- The function `handleRegisterEmployee` (lines 165-208), given the value of the
registration request and, for the roster refresh that follows a success, the value
of the `fetchEmployees` request. -/
def handleRegisterEmployee (s : State) (post : Posted)
    (roster : Fetched (List Employee)) : State :=
  if s.enrollmentImages.length < 3 then
    { s with message := { type := "error", text := "Please capture at least 3 face images" } }
  else
    let s1 : State :=
      { s with requests := s.requests ++ [.registerEmployee s.newEmployee s.enrollmentImages] }
    match post with
    | .ok =>
      let s2 : State :=
        { s1 with message := { type := "success", text := "Employee registered successfully!" },
                  newEmployee := emptyEmployee,
                  enrollmentImages := [], capturedImages := [] }
      { fetchEmployees (stopCamera s2) roster with loading := false }
    | .failed detail =>
      { s1 with message := { type := "error",
                             text := orDefault detail "Failed to register employee" },
                loading := false }

/-- The two methods of `Date` that `exportAttendance` calls without arguments; their
value depends on the locale of the browser.  They are applied to the timestamp of a
record. -/
structure Locale where
  toLocaleDateString : String → String
  toLocaleTimeString : String → String

/-- JavaScript `fields.join(',')`. -/
def joinComma (fields : List String) : String :=
  ",".intercalate fields

/-- The row of a record in `exportAttendance` (lines 226-232). -/
def csvRow (locale : Locale) (record : AttendanceRecord) : String :=
  joinComma [locale.toLocaleDateString record.timestamp,
    locale.toLocaleTimeString record.timestamp,
    record.employee_id, record.employee_name, record.status]

/-- The lines that `exportAttendance` joins (lines 224-233): the header, then one
row for each record. -/
def csvLines (locale : Locale) (attendance : List AttendanceRecord) : List String :=
  joinComma ["Date", "Time", "Employee ID", "Employee Name", "Status"] ::
    attendance.map (csvRow locale)

/-- The value of `csvContent` in `exportAttendance` (lines 224-233). -/
def csvContent (locale : Locale) (attendance : List AttendanceRecord) : String :=
  "\n".intercalate (csvLines locale attendance)

/-- The file that `exportAttendance` hands to the browser: the attribute `download`
of the link and the text of the blob. -/
structure Download where
  download : String
  content : String
deriving DecidableEq, Repr

/-- The function `exportAttendance` (lines 223-241): `url` is the value of
`URL.createObjectURL(blob)`. -/
def exportAttendance (s : State) (locale : Locale) (url : String) : State × Download :=
  ({ s with objectUrls := s.objectUrls ++ [url] },
   { download := "attendance_" ++ (if s.dateFilter = "" then "all" else s.dateFilter) ++ ".csv",
     content := csvContent locale s.attendance })

/-- The number of columns of a line of comma-separated text: one more than the
number of its commas. -/
def columns (line : String) : Nat :=
  line.toList.count ',' + 1

/-- The lines of a text: the pieces between its line feeds. -/
def textLines (text : String) : List String :=
  (text.toList.splitOn '\n').map String.mk

/-- A click on a sidebar button, `setActiveTab(tab)` (lines 262-289), followed by the
effects of the render it causes.  Setting the tab it already has causes no render.
Otherwise the cleanup of the effect of lines 39-43 calls `stopCamera`, and the effect
of lines 31-37 fetches the roster or the attendance records for the new tab. -/
def setActiveTab (s : State) (tab : Tab) (roster : Fetched (List Employee))
    (records : Fetched (List AttendanceRecord)) : State :=
  if tab = s.activeTab then s
  else
    let s1 : State := { stopCamera s with activeTab := tab }
    match tab with
    | .employees => fetchEmployees s1 roster
    | .attendance => fetchAttendance s1 records
    | _ => s1

/-- Closing the panel (`onClose`, line 257) unmounts it: the cleanup of the effect of
lines 39-43 calls `stopCamera`. -/
def unmount (s : State) : State :=
  stopCamera s

/-- Whether the submit button is disabled (line 469). -/
def submitDisabled (s : State) : Bool :=
  s.loading || decide (s.capturedImages.length < 3)

/-- The settling of a pending `getUserMedia`: `startCamera` continues with the value
of the promise. -/
def getUserMediaSettled (s : State) (r : MediaResult) : State :=
  startCamera { s with pendingGetUserMedia := s.pendingGetUserMedia - 1 } r

/-- The run of a pending `toBlob` callback, the one at position `k` of the queue,
with the length it has captured. -/
def toBlobDone (s : State) (k blob now : Nat) (url : String) : State :=
  match s.pendingToBlob.get? k with
  | none => s
  | some length =>
    toBlobCallback { s with pendingToBlob := s.pendingToBlob.eraseIdx k } length blob now url

/-- The events of the panel: the clicks, the settling of a pending `getUserMedia`,
and the run of a pending `toBlob` callback.  The last event stands for every
handler of the tabs other than the registration tab (lines 138-158, 210-241): they
write only the cells `employees`, `attendance`, `dateFilter`, `loading` and
`message`, and send requests. -/
inductive Action where
  | startCamera
  | getUserMediaSettled (r : MediaResult)
  | captureImage
  | toBlobDone (k blob now : Nat) (url : String)
  | stopCamera
  | removeImage (index : Nat)
  | resetCapture
  | setNewEmployee (e : Employee)
  | submit (post : Posted) (roster : Fetched (List Employee))
  | setActiveTab (tab : Tab) (roster : Fetched (List Employee))
      (records : Fetched (List AttendanceRecord))
  | otherTab (employees : List Employee) (attendance : List AttendanceRecord)
      (dateFilter : String) (loading : Bool) (message : Message) (sent : List Request)
deriving Repr

/-- Whether the event can take place in the state.  A click can, when its control is
rendered and enabled (lines 262-289 for the sidebar, 292 for the registration tab,
386, 400, 428, 447 and 469 for the camera controls and the submit button); a
completion can, when a call is pending.  The browser may withhold a submit event that
the enabled button would send (the inputs of the form are marked `required`); letting
it through adds states and removes none. -/
def offered (s : State) : Action → Bool
  | .startCamera =>
    s.activeTab == .register &&
      ((!s.isCameraActive && s.capturedImages.length == 0) ||
        (decide (s.capturedImages.length > 0) &&
          (!s.isCameraActive && decide (s.capturedImages.length < 5))))
  | .getUserMediaSettled _ => decide (s.pendingGetUserMedia > 0)
  | .captureImage => s.activeTab == .register && s.isCameraActive
  | .toBlobDone k _ _ _ => decide (k < s.pendingToBlob.length)
  | .stopCamera => s.activeTab == .register && s.isCameraActive
  | .removeImage index =>
    s.activeTab == .register && decide (s.capturedImages.length > 0) &&
      decide (index < s.capturedImages.length)
  | .resetCapture => s.activeTab == .register && decide (s.capturedImages.length > 0)
  | .setNewEmployee _ => s.activeTab == .register
  | .submit _ _ => s.activeTab == .register && !submitDisabled s
  | .setActiveTab _ _ _ => true
  | .otherTab _ _ _ _ _ _ => s.activeTab != .register

/-- The state after an event. -/
def step (s : State) : Action → State
  | .startCamera => startCameraCall s
  | .getUserMediaSettled r => getUserMediaSettled s r
  | .captureImage => captureImageCall s
  | .toBlobDone k blob now url => toBlobDone s k blob now url
  | .stopCamera => stopCamera s
  | .removeImage index => removeImage s index
  | .resetCapture => resetCapture s
  | .setNewEmployee e => { s with newEmployee := e }
  | .submit post roster => handleRegisterEmployee s post roster
  | .setActiveTab tab roster records => setActiveTab s tab roster records
  | .otherTab employees attendance dateFilter loading message sent =>
    { s with employees := employees, attendance := attendance, dateFilter := dateFilter,
             loading := loading, message := message, requests := s.requests ++ sent }

/-- The state after a sequence of events; an event that cannot take place in the
state it meets is skipped.  The states the user can bring the panel to are the states
`run init events`. -/
def run (s : State) : List Action → State
  | [] => s
  | a :: rest => run (if offered s a then step s a else s) rest

/-- The requests sent between two states of the log. -/
def sent (before after : State) : List Request :=
  after.requests.drop before.requests.length

/-- Whether a request is a `POST /admin/register-employee`. -/
def isRegister : Request → Bool
  | .registerEmployee _ _ => true
  | _ => false

/-- The files of the frames the events capture, in the order of the events. -/
def capturedFiles : List Action → List File
  | [] => []
  | .toBlobDone _ blob now _ :: rest =>
    { blob := blob, name := "capture_" ++ toString now ++ ".jpg" } :: capturedFiles rest
  | _ :: rest => capturedFiles rest

/-- Whether every running track belongs to the stream held in `streamRef`. -/
def noLeak (s : State) : Bool :=
  match s.streamRef with
  | some stream => s.liveTracks.all (fun t => stream.tracks.contains t)
  | none => s.liveTracks.isEmpty

/-- The events of a session that starts the camera and captures two frames, each
callback running before the next click. -/
def twoCaptures : List Action :=
  [.startCamera, .getUserMediaSettled (.ok camera),
   .captureImage, .toBlobDone 0 11 1 "blob:1", .captureImage, .toBlobDone 0 12 2 "blob:2"]

/-- The events of a session that starts the camera and captures three frames. -/
def threeCaptures : List Action :=
  twoCaptures ++ [.captureImage, .toBlobDone 0 13 3 "blob:3"]

/-- The events of a session that starts the camera and captures four frames. -/
def fourCaptures : List Action :=
  threeCaptures ++ [.captureImage, .toBlobDone 0 14 4 "blob:4"]

/-- The events of a session that starts the camera and captures five frames. -/
def fiveCaptures : List Action :=
  fourCaptures ++ [.captureImage, .toBlobDone 0 15 5 "blob:5"]

/-- Four frames captured, then two clicks on the capture button before the callback
of the first has run, then the two callbacks. -/
def doubleClickAtFour : List Action :=
  fourCaptures ++
    [.captureImage, .captureImage, .toBlobDone 0 15 5 "blob:5", .toBlobDone 0 16 6 "blob:6"]

/-- Three frames captured, then two clicks on the capture button before the callback
of the first has run, then the two callbacks. -/
def doubleClickAtThree : List Action :=
  threeCaptures ++
    [.captureImage, .captureImage, .toBlobDone 0 14 4 "blob:4", .toBlobDone 0 15 5 "blob:5"]

/-- Two clicks on the start button before the first `getUserMedia` has settled, then
the two promises resolve, with the streams `camera` and `secondCamera`. -/
def doubleStart : List Action :=
  [.startCamera, .startCamera, .getUserMediaSettled (.ok camera),
   .getUserMediaSettled (.ok secondCamera)]

/-- An attendance record whose employee name contains a comma. -/
def commaRecord : AttendanceRecord :=
  { timestamp := "2026-11-04T09:00:00", employee_id := "EMP001",
    employee_name := "Doe, John", status := "late" }

/-- What the two methods return for the timestamp of `commaRecord` in a browser set
to `en-US`. -/
def enUS : Locale :=
  { toLocaleDateString := fun _ => "11/4/2026",
    toLocaleTimeString := fun _ => "9:00:00 AM" }

/-- The panel on the attendance tab with `commaRecord` loaded. -/
def commaLoaded : State :=
  { init with activeTab := .attendance, attendance := [commaRecord] }

/-- The invariant of the two lists of the batch: the files to submit are the files
of the frames shown, in the same order. -/
def FilesEq (s : State) : Prop :=
  s.enrollmentImages = s.capturedImages.map (fun c => c.file)

end AdminPanel

/-! ## AttendanceSystem.jsx -/

namespace AttendanceSystem

/-- The cell `adminCredentials`. -/
structure Credentials where
  username : String
  password : String
deriving DecidableEq, Repr

/-- The body of a successful answer of `POST /attendance/mark`. -/
structure MarkResponse where
  employee_name : String
  employee_id : String
  timestamp : String
  status : String
  status_message : String
  similarity : Rat
deriving DecidableEq, Repr

/-- The value of the `axios.post` of `captureAndMarkAttendance`: a response, or a
failure whose `err.response?.data?.detail` is the given optional string. -/
inductive Marked where
  | ok (data : MarkResponse)
  | failed (detail : Option String)
deriving DecidableEq, Repr

/-- The object stored in the cell `result` (lines 75-83, 86-89): with
`success: true` the six fields copied from the response, with `success: false` a
message. -/
inductive Result where
  | success (employee_name employee_id timestamp status message : String)
      (similarity : Rat)
  | failure (message : String)
deriving DecidableEq, Repr

/-- The cells of the kiosk screen (lines 12-21), and the running tracks of every
stream acquired so far. -/
structure State where
  stream : Option MediaStream
  cameraActive : Bool
  loading : Bool
  result : Option Result
  showResultModal : Bool
  showAdminPanel : Bool
  showAdminLogin : Bool
  adminCredentials : Credentials
  adminError : String
  isAuthenticated : Bool
  liveTracks : List Nat
deriving DecidableEq, Repr

/-- The state of the first render (lines 12-21). -/
def init : State :=
  { stream := none, cameraActive := false, loading := false, result := none,
    showResultModal := false, showAdminPanel := false,
    showAdminLogin := false, adminCredentials := { username := "", password := "" },
    adminError := "", isAuthenticated := false, liveTracks := [] }

/-- The function `startCamera` (lines 29-43), given the value of `getUserMedia`. -/
def startCamera (s : State) (r : MediaResult) : State :=
  match r with
  | .ok mediaStream =>
    { s with liveTracks := s.liveTracks ++ mediaStream.tracks,
             stream := some mediaStream, cameraActive := true }
  | .error _ => s

/-- The function `stopCamera` (lines 45-51).  It reads the cell `stream` through its
closure: `stream` is the value the cell had in the render that created the closure. -/
def stopCamera (stream : Option MediaStream) (s : State) : State :=
  match stream with
  | some st => { s with liveTracks := stopTracks st s.liveTracks,
                        stream := none, cameraActive := false }
  | none => s

/-- The effect of lines 23-27, run once after the first render: `startCamera()`. -/
def mount (r : MediaResult) : State :=
  startCamera init r

/-- The cleanup of the effect of lines 23-27, run when the component is unmounted.
The dependency list is empty, so the cleanup is the closure `() => stopCamera()` of
the first render, whose `stream` is the initial value of the cell. -/
def unmount (s : State) : State :=
  stopCamera init.stream s

/-- The function `handleAdminLogin` (lines 98-109). -/
def handleAdminLogin (s : State) : State :=
  if s.adminCredentials.username = "admin" ∧ s.adminCredentials.password = "admin123" then
    { s with isAuthenticated := true, showAdminLogin := false, showAdminPanel := true,
             adminError := "", adminCredentials := { username := "", password := "" } }
  else
    { s with adminError := "Invalid username or password" }

/-- The function `handleCloseAdminModal` (lines 111-115). -/
def handleCloseAdminModal (s : State) : State :=
  { s with showAdminLogin := false, adminError := "",
           adminCredentials := { username := "", password := "" } }

/-- Whether the kiosk screen is replaced by the admin panel (line 143). -/
def showsAdminPanel (s : State) : Bool :=
  s.showAdminPanel && s.isAuthenticated

/-- Whether `canvasRef.current` and `videoRef.current` are set: the `<video>` and the
`<canvas>` are rendered whenever the kiosk screen is (lines 143-177). -/
def refsMounted (s : State) : Bool :=
  !showsAdminPanel s

/-- The function `captureAndMarkAttendance` (lines 53-96) together with its `toBlob`
callback, given the value of the request. -/
def captureAndMarkAttendance (s : State) (answer : Marked) : State :=
  if refsMounted s then
    let s1 : State := { s with loading := true, result := none }
    match answer with
    | .ok data =>
      { s1 with result := some (.success data.employee_name data.employee_id data.timestamp
                  data.status data.status_message data.similarity),
                showResultModal := true, loading := false }
    | .failed detail =>
      { s1 with result := some (.failure
                  (orDefault detail "Failed to mark attendance. Face not recognized.")),
                showResultModal := true, loading := false }
  else s

/-- The kiosk with its camera running and the accepted credentials typed into the
login dialog. -/
def loggingIn : State :=
  { mount (.ok camera) with
      showAdminLogin := true,
      adminCredentials := { username := "admin", password := "admin123" } }

/-- An answer of the backend for an employee who arrives late. -/
def lateResponse : MarkResponse :=
  { employee_name := "Jane Roe", employee_id := "EMP007",
    timestamp := "2026-11-04T09:20:00", status := "late",
    status_message := "Late arrival", similarity := 87 / 100 }

/-- The kiosk with a wrong password typed into the login dialog. -/
def wrongPassword : State :=
  { mount (.ok camera) with
      showAdminLogin := true,
      adminCredentials := { username := "admin", password := "letmein" } }

end AttendanceSystem


/-! ## Lemmas -/

theorem enumFrom_filter_ne {α : Type} (xs : List α) (k i : Nat) :
    ((xs.enumFrom k).filter (fun p => p.1 != k + i)).map Prod.snd
      = xs.take i ++ xs.drop (i + 1) := by
  induction xs generalizing k i with
  | nil => simp
  | cons x xs ih =>
    cases i with
    | zero =>
      have h : ∀ p ∈ xs.enumFrom (k + 1), (p.1 != k) = true := by
        intro p hp
        have := List.le_fst_of_mem_enumFrom hp
        simp; omega
      simp [List.enumFrom_cons, List.filter_eq_self.mpr h]
    | succ j =>
      have hk : k + (j + 1) = (k + 1) + j := by omega
      have h := ih (k + 1) j
      rw [← hk] at h
      simp [List.enumFrom_cons, List.filter_cons, h]

theorem filterIndexNe_eq {α : Type} (xs : List α) (i : Nat) :
    filterIndexNe xs i = xs.take i ++ xs.drop (i + 1) := by
  have h := enumFrom_filter_ne xs 0 i
  simpa [filterIndexNe, List.enum] using h

theorem filterIndexNe_map {α β : Type} (f : α → β) (xs : List α) (i : Nat) :
    filterIndexNe (xs.map f) i = (filterIndexNe xs i).map f := by
  simp [filterIndexNe_eq, List.map_take, List.map_drop]

theorem filterIndexNe_sublist {α : Type} (xs : List α) (i : Nat) :
    (filterIndexNe xs i).Sublist xs := by
  rw [filterIndexNe_eq]
  calc (xs.take i ++ xs.drop (i + 1)).Sublist (xs.take i ++ xs.drop i) :=
        List.Sublist.append_left (List.drop_sublist_drop_left xs (Nat.le_succ i)) _
    _ = xs := List.take_append_drop i xs

theorem filterIndexNe_length_le {α : Type} (xs : List α) (i : Nat) :
    (filterIndexNe xs i).length ≤ xs.length :=
  (filterIndexNe_sublist xs i).length_le


namespace AdminPanel

/-! ### What `stopCamera` and the fetches leave alone -/

@[simp] theorem stopCamera_capturedImages (s : State) :
    (stopCamera s).capturedImages = s.capturedImages := by
  unfold stopCamera; split <;> rfl

@[simp] theorem stopCamera_enrollmentImages (s : State) :
    (stopCamera s).enrollmentImages = s.enrollmentImages := by
  unfold stopCamera; split <;> rfl

@[simp] theorem stopCamera_isCameraActive (s : State) :
    (stopCamera s).isCameraActive = false := by
  unfold stopCamera; split <;> rfl

@[simp] theorem stopCamera_streamRef (s : State) :
    (stopCamera s).streamRef = none := by
  unfold stopCamera; split <;> simp_all

@[simp] theorem stopCamera_activeTab (s : State) :
    (stopCamera s).activeTab = s.activeTab := by
  unfold stopCamera; split <;> rfl

@[simp] theorem stopCamera_requests (s : State) :
    (stopCamera s).requests = s.requests := by
  unfold stopCamera; split <;> rfl

@[simp] theorem stopCamera_newEmployee (s : State) :
    (stopCamera s).newEmployee = s.newEmployee := by
  unfold stopCamera; split <;> rfl

@[simp] theorem stopCamera_message (s : State) :
    (stopCamera s).message = s.message := by
  unfold stopCamera; split <;> rfl

theorem stopCamera_liveTracks (s : State) :
    (stopCamera s).liveTracks =
      match s.streamRef with
      | some stream => stopTracks stream s.liveTracks
      | none => s.liveTracks := by
  unfold stopCamera; split <;> simp_all

theorem stopCamera_not_running (s : State) (stream : MediaStream)
    (hs : s.streamRef = some stream) (t : Nat) (ht : t ∈ stream.tracks) :
    t ∉ (stopCamera s).liveTracks := by
  rw [stopCamera_liveTracks, hs]
  simp [stopTracks, ht]

theorem fetchEmployees_capture (s : State) (r : Fetched (List Employee)) :
    (fetchEmployees s r).capturedImages = s.capturedImages ∧
    (fetchEmployees s r).enrollmentImages = s.enrollmentImages ∧
    (fetchEmployees s r).isCameraActive = s.isCameraActive ∧
    (fetchEmployees s r).streamRef = s.streamRef ∧
    (fetchEmployees s r).liveTracks = s.liveTracks := by
  cases r <;> simp [fetchEmployees]

theorem fetchAttendance_capture (s : State) (r : Fetched (List AttendanceRecord)) :
    (fetchAttendance s r).capturedImages = s.capturedImages ∧
    (fetchAttendance s r).enrollmentImages = s.enrollmentImages ∧
    (fetchAttendance s r).isCameraActive = s.isCameraActive ∧
    (fetchAttendance s r).streamRef = s.streamRef ∧
    (fetchAttendance s r).liveTracks = s.liveTracks := by
  cases r <;> simp [fetchAttendance]

/-! ### The two lists of the batch -/

theorem toBlobCallback_lists (s : State) (length blob now : Nat) (url : String) :
    (toBlobCallback s length blob now url).capturedImages
      = s.capturedImages ++
          [{ file := { blob := blob, name := "capture_" ++ toString now ++ ".jpg" },
             url := url }] ∧
    (toBlobCallback s length blob now url).enrollmentImages
      = s.enrollmentImages ++
          [{ blob := blob, name := "capture_" ++ toString now ++ ".jpg" }] := by
  unfold toBlobCallback
  split <;> simp

theorem handleRegisterEmployee_lists (s : State) (post : Posted)
    (roster : Fetched (List Employee)) :
    ((handleRegisterEmployee s post roster).capturedImages = s.capturedImages ∧
      (handleRegisterEmployee s post roster).enrollmentImages = s.enrollmentImages) ∨
    ((handleRegisterEmployee s post roster).capturedImages = [] ∧
      (handleRegisterEmployee s post roster).enrollmentImages = []) := by
  unfold handleRegisterEmployee
  split
  · exact Or.inl ⟨rfl, rfl⟩
  · cases post with
    | failed detail => exact Or.inl ⟨rfl, rfl⟩
    | ok =>
      refine Or.inr ⟨?_, ?_⟩
      · simp [(fetchEmployees_capture _ roster).1]
      · simp [(fetchEmployees_capture _ roster).2.1]

theorem setActiveTab_lists (s : State) (tab : Tab) (roster : Fetched (List Employee))
    (records : Fetched (List AttendanceRecord)) :
    (setActiveTab s tab roster records).capturedImages = s.capturedImages ∧
    (setActiveTab s tab roster records).enrollmentImages = s.enrollmentImages := by
  unfold setActiveTab
  split
  · exact ⟨rfl, rfl⟩
  · cases tab <;>
      simp [(fetchEmployees_capture _ roster).1, (fetchEmployees_capture _ roster).2.1,
        (fetchAttendance_capture _ records).1, (fetchAttendance_capture _ records).2.1]

/-- Every event keeps the two lists of the batch in step, whether it is offered or
not. -/
theorem filesEq_step (s : State) (a : Action) (h : FilesEq s) : FilesEq (step s a) := by
  cases a with
  | startCamera => exact h
  | getUserMediaSettled r => cases r <;> exact h
  | captureImage =>
    show FilesEq (captureImageCall s)
    unfold captureImageCall
    split <;> exact h
  | toBlobDone k blob now url =>
    show FilesEq (toBlobDone s k blob now url)
    unfold toBlobDone
    split
    · exact h
    · next length _ =>
      have hl := toBlobCallback_lists
        { s with pendingToBlob := s.pendingToBlob.eraseIdx k } length blob now url
      unfold FilesEq at h ⊢
      rw [hl.1, hl.2]
      simp [h]
  | stopCamera =>
    show FilesEq (stopCamera s)
    unfold FilesEq at h ⊢
    simpa using h
  | removeImage index =>
    show filterIndexNe s.enrollmentImages index
      = (filterIndexNe s.capturedImages index).map (fun c => c.file)
    unfold FilesEq at h
    rw [h, filterIndexNe_map]
  | resetCapture =>
    show FilesEq (resetCapture s)
    simp [FilesEq, resetCapture]
  | setNewEmployee e => exact h
  | submit post roster =>
    show FilesEq (handleRegisterEmployee s post roster)
    unfold FilesEq at h ⊢
    rcases handleRegisterEmployee_lists s post roster with ⟨h1, h2⟩ | ⟨h1, h2⟩
    · rw [h1, h2]; exact h
    · rw [h1, h2]; rfl
  | setActiveTab tab roster records =>
    show FilesEq (setActiveTab s tab roster records)
    unfold FilesEq at h ⊢
    rw [(setActiveTab_lists s tab roster records).1, (setActiveTab_lists s tab roster records).2]
    exact h
  | otherTab employees attendance dateFilter loading message more => exact h

theorem filesEq_run_from (events : List Action) (s : State) (h : FilesEq s) :
    FilesEq (run s events) := by
  induction events generalizing s with
  | nil => exact h
  | cons a rest ih =>
    unfold run
    apply ih
    split
    · exact filesEq_step s a h
    · exact h

/-- In every state the user can reach, the files to submit are the files of the
frames shown. -/
theorem filesEq_run (events : List Action) : FilesEq (run init events) :=
  filesEq_run_from events init rfl

theorem step_enrollmentImages_sublist (s : State) (a : Action) :
    (step s a).enrollmentImages.Sublist (s.enrollmentImages ++ capturedFiles [a]) := by
  cases a with
  | toBlobDone k blob now url =>
    show (toBlobDone s k blob now url).enrollmentImages.Sublist _
    unfold toBlobDone
    split
    · exact List.sublist_append_left _ _
    · next length _ =>
      rw [(toBlobCallback_lists
        { s with pendingToBlob := s.pendingToBlob.eraseIdx k } length blob now url).2]
      simp [capturedFiles]
  | captureImage =>
    show (captureImageCall s).enrollmentImages.Sublist _
    unfold captureImageCall
    split <;> simp [capturedFiles]
  | removeImage index =>
    simpa [capturedFiles, step, removeImage] using filterIndexNe_sublist s.enrollmentImages index
  | submit post roster =>
    show (handleRegisterEmployee s post roster).enrollmentImages.Sublist _
    rcases handleRegisterEmployee_lists s post roster with ⟨_, h2⟩ | ⟨_, h2⟩
    · rw [h2]; simp [capturedFiles]
    · rw [h2]; simp
  | setActiveTab tab roster records =>
    show (setActiveTab s tab roster records).enrollmentImages.Sublist _
    rw [(setActiveTab_lists s tab roster records).2]
    simp [capturedFiles]
  | startCamera => simp [capturedFiles, step, startCameraCall]
  | getUserMediaSettled r =>
    cases r <;> simp [capturedFiles, step, getUserMediaSettled, startCamera]
  | stopCamera => simp [capturedFiles, step]
  | resetCapture => simp [capturedFiles, step, resetCapture]
  | setNewEmployee e => simp [capturedFiles, step]
  | otherTab employees attendance dateFilter loading message more => simp [capturedFiles, step]

theorem capturedFiles_cons (a : Action) (rest : List Action) :
    capturedFiles (a :: rest) = capturedFiles [a] ++ capturedFiles rest := by
  cases a <;> simp [capturedFiles]

theorem run_enrollmentImages_sublist (events : List Action) (s : State) :
    (run s events).enrollmentImages.Sublist (s.enrollmentImages ++ capturedFiles events) := by
  induction events generalizing s with
  | nil => simp [run, capturedFiles]
  | cons a rest ih =>
    unfold run
    rw [capturedFiles_cons, ← List.append_assoc]
    refine (ih _).trans (List.Sublist.append_right ?_ _)
    split
    · exact step_enrollmentImages_sublist s a
    · exact List.sublist_append_left _ _

/-! ## The claims -/

/-- Claim C1 fails on the code.  With four frames captured and the camera running,
the capture button can be clicked twice before the `toBlob` callback of the first
click has run: the click writes no cell, so the button stays rendered.  The first
callback brings the batch to five frames and stops the camera; the second callback,
already queued, appends a sixth frame. -/
theorem c1_double_click_gives_six_frames :
    (run init fourCaptures).capturedImages.length = 4 ∧
    (run init fourCaptures).isCameraActive = true ∧
    offered (run init fourCaptures) .captureImage = true ∧
    offered (step (run init fourCaptures) .captureImage) .captureImage = true ∧
    (run init (fourCaptures ++
      [.captureImage, .captureImage, .toBlobDone 0 15 5 "blob:5"])).capturedImages.length = 5 ∧
    (run init (fourCaptures ++
      [.captureImage, .captureImage, .toBlobDone 0 15 5 "blob:5"])).isCameraActive = false ∧
    (run init doubleClickAtFour).capturedImages.length = 6 ∧
    (run init doubleClickAtFour).enrollmentImages.length = 6 := by
  decide

/-- Claim C3. For every state of the admin panel and every tab other than the active
one, switching to that tab stops the camera, whatever the batch holds: `streamRef`
holds no stream, `isCameraActive` is false, and no track of the stream that was held
is still running. -/
theorem c3_tab_switch_stops_camera (s : State) (tab : Tab)
    (roster : Fetched (List Employee)) (records : Fetched (List AttendanceRecord))
    (h : tab ≠ s.activeTab) :
    (setActiveTab s tab roster records).streamRef = none ∧
    (setActiveTab s tab roster records).isCameraActive = false ∧
    (setActiveTab s tab roster records).activeTab = tab ∧
    ∀ stream, s.streamRef = some stream →
      ∀ t ∈ stream.tracks, t ∉ (setActiveTab s tab roster records).liveTracks := by
  have hlive : (setActiveTab s tab roster records).liveTracks = (stopCamera s).liveTracks := by
    unfold setActiveTab
    rw [if_neg h]
    cases tab <;>
      simp [(fetchEmployees_capture _ roster).2.2.2.2, (fetchAttendance_capture _ records).2.2.2.2]
  refine ⟨?_, ?_, ?_, ?_⟩
  · unfold setActiveTab
    rw [if_neg h]
    cases tab <;>
      simp [(fetchEmployees_capture _ roster).2.2.2.1, (fetchAttendance_capture _ records).2.2.2.1]
  · unfold setActiveTab
    rw [if_neg h]
    cases tab <;>
      simp [(fetchEmployees_capture _ roster).2.2.1, (fetchAttendance_capture _ records).2.2.1]
  · unfold setActiveTab
    rw [if_neg h]
    cases tab <;> cases roster <;> cases records <;> simp [fetchEmployees, fetchAttendance]
  · intro stream hs t ht
    rw [hlive]
    exact stopCamera_not_running s stream hs t ht

/-- Witness of C3: with the camera running and two frames captured, the switch to
the roster tab stops both tracks of the stream. -/
theorem c3_tab_switch_stops_camera_witness :
    (run init twoCaptures).streamRef = some camera ∧
    (setActiveTab (run init twoCaptures) .employees .failed .failed).streamRef = none ∧
    (setActiveTab (run init twoCaptures) .employees .failed .failed).isCameraActive = false ∧
    7 ∉ (setActiveTab (run init twoCaptures) .employees .failed .failed).liveTracks :=
  have h := c3_tab_switch_stops_camera (run init twoCaptures) .employees .failed .failed
    (by decide)
  ⟨by decide, h.1, h.2.1, h.2.2.2 camera (by decide) 7 (by decide)⟩

theorem sent_handleRegisterEmployee (s : State) (post : Posted)
    (roster : Fetched (List Employee)) :
    (sent s (handleRegisterEmployee s post roster)).filter isRegister =
      if s.enrollmentImages.length < 3 then []
      else [.registerEmployee s.newEmployee s.enrollmentImages] := by
  unfold handleRegisterEmployee sent
  split
  · simp
  · cases post <;> cases roster <;> simp [fetchEmployees, isRegister]

/-- Claim C4 fails on the code.  `startCamera` writes no cell before `getUserMedia`
settles, so the start button stays rendered and can be clicked a second time while
the first call is pending.  When both promises have resolved, `streamRef` holds the
second stream and the tracks of the first are still running; `stopCamera` then stops
the second stream only, and nothing refers to the first any more. -/
theorem c4_double_start_leaks_first_stream :
    offered init .startCamera = true ∧
    offered (step init .startCamera) .startCamera = true ∧
    (run init (doubleStart.take 3)).streamRef = some camera ∧
    noLeak (run init (doubleStart.take 3)) = true ∧
    (run init doubleStart).streamRef = some secondCamera ∧
    (run init doubleStart).liveTracks = [7, 8, 9] ∧
    noLeak (run init doubleStart) = false ∧
    (stopCamera (run init doubleStart)).streamRef = none ∧
    (stopCamera (run init doubleStart)).liveTracks = [7, 8] := by
  decide

/-- Claim C5. For every batch size `n` (in particular every `n` from 0 to 5),
`handleRegisterEmployee` sends the registration request if and only if the batch
holds at least three images, and then sends exactly one, carrying the form and the
batch; below three images it sends no request at all and sets the error message
`Please capture at least 3 face images`.  The submit button is enabled, when nothing
is loading, exactly when at least three frames are captured. -/
theorem c5_submittable_iff_three (s : State) (post : Posted)
    (roster : Fetched (List Employee)) :
    ((sent s (handleRegisterEmployee s post roster)).any isRegister = true
      ↔ 3 ≤ s.enrollmentImages.length) ∧
    (3 ≤ s.enrollmentImages.length →
      (sent s (handleRegisterEmployee s post roster)).filter isRegister
        = [.registerEmployee s.newEmployee s.enrollmentImages]) ∧
    (s.enrollmentImages.length < 3 →
      (handleRegisterEmployee s post roster).requests = s.requests ∧
      (handleRegisterEmployee s post roster).message
        = { type := "error", text := "Please capture at least 3 face images" }) ∧
    (s.loading = false → (submitDisabled s = false ↔ 3 ≤ s.capturedImages.length)) := by
  have hsent := sent_handleRegisterEmployee s post roster
  refine ⟨?_, ?_, ?_, ?_⟩
  · by_cases h : s.enrollmentImages.length < 3
    · have hnil : (sent s (handleRegisterEmployee s post roster)).filter isRegister = [] := by
        rw [hsent, if_pos h]
      have hno : (sent s (handleRegisterEmployee s post roster)).any isRegister = false := by
        rw [List.any_eq_false]
        intro x hx hr
        have : x ∈ (sent s (handleRegisterEmployee s post roster)).filter isRegister :=
          List.mem_filter.mpr ⟨hx, hr⟩
        rw [hnil] at this
        exact List.not_mem_nil _ this
      rw [hno]
      constructor
      · intro hf; cases hf
      · intro h3; omega
    · have hone : (sent s (handleRegisterEmployee s post roster)).filter isRegister
          = [.registerEmployee s.newEmployee s.enrollmentImages] := by
        rw [hsent, if_neg h]
      have hmem : Request.registerEmployee s.newEmployee s.enrollmentImages
          ∈ (sent s (handleRegisterEmployee s post roster)).filter isRegister := by
        rw [hone]; exact List.mem_singleton.mpr rfl
      constructor
      · intro _; omega
      · intro _
        rw [List.any_eq_true]
        exact ⟨_, (List.mem_filter.mp hmem).1, (List.mem_filter.mp hmem).2⟩
  · intro h3
    rw [hsent, if_neg (by omega)]
  · intro h
    simp [handleRegisterEmployee, h]
  · intro hl
    simp [submitDisabled, hl]

/-- Witness of C5: with exactly two images no request is sent and the error message
is set; with three images the registration request is sent. -/
theorem c5_submittable_iff_three_witness :
    (run init twoCaptures).enrollmentImages.length = 2 ∧
    (handleRegisterEmployee (run init twoCaptures) .ok (.ok [])).requests
      = (run init twoCaptures).requests ∧
    (handleRegisterEmployee (run init twoCaptures) .ok (.ok [])).message
      = { type := "error", text := "Please capture at least 3 face images" } ∧
    (sent (run init threeCaptures)
        (handleRegisterEmployee (run init threeCaptures) .ok (.ok []))).filter isRegister
      = [.registerEmployee (run init threeCaptures).newEmployee
          (run init threeCaptures).enrollmentImages] ∧
    (submitDisabled (run init twoCaptures) = false
      ↔ 3 ≤ (run init twoCaptures).capturedImages.length) :=
  have h2 := c5_submittable_iff_three (run init twoCaptures) .ok (.ok [])
  have h3 := c5_submittable_iff_three (run init threeCaptures) .ok (.ok [])
  ⟨by decide, (h2.2.2.1 (by decide)).1, (h2.2.2.1 (by decide)).2,
    h3.2.1 (by decide), h2.2.2.2 (by decide)⟩

end AdminPanel

namespace AttendanceSystem

/-- Claim C2 fails on the code, on both exit paths.  With the stream `camera`
acquired at mount, unmounting the kiosk changes nothing: the cleanup is the closure
of the first render, whose `stream` is `null`, so no track is stopped.  A successful
login replaces the screen by the admin panel and never calls `stopCamera`: both
tracks keep running and the session stays active. -/
theorem c2_exit_leaves_camera_running :
    (mount (.ok camera)).stream = some camera ∧
    (mount (.ok camera)).liveTracks = [7, 8] ∧
    unmount (mount (.ok camera)) = mount (.ok camera) ∧
    (unmount (mount (.ok camera))).liveTracks = [7, 8] ∧
    (unmount (mount (.ok camera))).cameraActive = true ∧
    showsAdminPanel loggingIn = false ∧
    showsAdminPanel (handleAdminLogin loggingIn) = true ∧
    (handleAdminLogin loggingIn).stream = some camera ∧
    (handleAdminLogin loggingIn).liveTracks = [7, 8] ∧
    (handleAdminLogin loggingIn).cameraActive = true := by
  decide

end AttendanceSystem

namespace AdminPanel

/-- Claim C6 as stated fails: `handleRegisterEmployee` checks the size of the batch
and nothing else.  Called with three images and every field of the form empty, it
sends the registration request, carrying the empty form. -/
theorem c6_handler_ignores_empty_fields :
    (run init threeCaptures).newEmployee = emptyEmployee ∧
    (run init threeCaptures).enrollmentImages.length = 3 ∧
    sent (run init threeCaptures)
        (handleRegisterEmployee (run init threeCaptures) (.failed none) .failed)
      = [.registerEmployee emptyEmployee (run init threeCaptures).enrollmentImages] ∧
    (handleRegisterEmployee (run init threeCaptures) (.failed none) .failed).message.text
      = "Failed to register employee" := by
  decide

/-- Claim C6, amended.  `handleRegisterEmployee` makes no check of the fields of the
form; its only validation is the size of the batch.  For every state of the form in
which one of the fields is the empty string: with three or more images it sends the
registration request, which carries the form as it is, with its empty field; with
fewer than three it sends no request and sets the error
`Please capture at least 3 face images`. -/
theorem c6_handler_checks_only_batch_size (s : State) (post : Posted)
    (roster : Fetched (List Employee))
    (h : s.newEmployee.employee_id = "" ∨ s.newEmployee.full_name = "" ∨
      s.newEmployee.email = "" ∨ s.newEmployee.department = "" ∨
      s.newEmployee.position = "") :
    (3 ≤ s.enrollmentImages.length →
      ∃ form : Employee,
        (sent s (handleRegisterEmployee s post roster)).filter isRegister
          = [.registerEmployee form s.enrollmentImages] ∧
        form = s.newEmployee ∧
        (form.employee_id = "" ∨ form.full_name = "" ∨ form.email = "" ∨
          form.department = "" ∨ form.position = "")) ∧
    (s.enrollmentImages.length < 3 →
      (handleRegisterEmployee s post roster).requests = s.requests ∧
      (handleRegisterEmployee s post roster).message
        = { type := "error", text := "Please capture at least 3 face images" }) := by
  refine ⟨fun h3 => ⟨s.newEmployee, ?_, rfl, h⟩, fun hlt => ?_⟩
  · rw [sent_handleRegisterEmployee, if_neg (by omega)]
  · simp [handleRegisterEmployee, hlt]

/-- Witness of C6 amended: with three images and an empty form the request is sent,
carrying the empty form; with two images and an empty form the size check fails. -/
theorem c6_handler_checks_only_batch_size_witness :
    (run init threeCaptures).newEmployee.employee_id = "" ∧
    (sent (run init threeCaptures)
        (handleRegisterEmployee (run init threeCaptures) .ok (.ok []))).filter isRegister
      = [.registerEmployee (run init threeCaptures).newEmployee
          (run init threeCaptures).enrollmentImages] ∧
    (handleRegisterEmployee (run init twoCaptures) .ok (.ok [])).requests
      = (run init twoCaptures).requests :=
  have h3 := c6_handler_checks_only_batch_size (run init threeCaptures) .ok (.ok [])
    (Or.inl (by decide))
  have h2 := c6_handler_checks_only_batch_size (run init twoCaptures) .ok (.ok [])
    (Or.inl (by decide))
  ⟨by decide,
    by
      obtain ⟨form, hsent, hform, _⟩ := h3.1 (by decide)
      rw [hsent, hform],
    (h2.2 (by decide)).1⟩

/-- Claim C7. In every state of the admin panel that the user can reach, the files
to submit (`enrollmentImages`) are, element for element and in the same order, the
files of the frames shown (`capturedImages`); they are a subsequence of the files
captured so far, in the order of capture; and the registration request sent from
that state carries exactly the files of the frames shown, in that order. -/
theorem c7_request_in_capture_order (events : List Action) (post : Posted)
    (roster : Fetched (List Employee)) :
    (run init events).enrollmentImages
      = (run init events).capturedImages.map (fun c => c.file) ∧
    (run init events).enrollmentImages.Sublist (capturedFiles events) ∧
    (sent (run init events)
        (handleRegisterEmployee (run init events) post roster)).filter isRegister
      = if (run init events).capturedImages.length < 3 then []
        else [.registerEmployee (run init events).newEmployee
                ((run init events).capturedImages.map (fun c => c.file))] := by
  have h : (run init events).enrollmentImages
      = (run init events).capturedImages.map (fun c => c.file) := filesEq_run events
  refine ⟨h, ?_, ?_⟩
  · simpa [init] using run_enrollmentImages_sublist events init
  · rw [sent_handleRegisterEmployee, h]
    simp

/-- Claim C9 as stated fails: a tab switch does not touch the batch.  With two
frames captured, after the switch to the roster tab both lists still hold the two
frames, and they are still there after the switch back. -/
theorem c9_tab_switch_keeps_batch :
    (run init twoCaptures).capturedImages.length = 2 ∧
    (setActiveTab (run init twoCaptures) .employees (.ok []) .failed).activeTab
      = .employees ∧
    (setActiveTab (run init twoCaptures) .employees (.ok []) .failed).capturedImages
      = (run init twoCaptures).capturedImages ∧
    (setActiveTab (run init twoCaptures) .employees (.ok []) .failed).enrollmentImages
      = (run init twoCaptures).enrollmentImages ∧
    (setActiveTab (run init twoCaptures) .employees (.ok []) .failed).capturedImages ≠ [] ∧
    (setActiveTab (setActiveTab (run init twoCaptures) .employees (.ok []) .failed)
        .register .failed .failed).capturedImages.length = 2 := by
  decide

/-- Claim C9, amended.  For every state, a tab switch leaves `capturedImages` and
`enrollmentImages` as they were: the batch is kept, only the camera is stopped. -/
theorem c9_tab_switch_preserves_batch (s : State) (tab : Tab)
    (roster : Fetched (List Employee)) (records : Fetched (List AttendanceRecord)) :
    (setActiveTab s tab roster records).capturedImages = s.capturedImages ∧
    (setActiveTab s tab roster records).enrollmentImages = s.enrollmentImages ∧
    (setActiveTab s tab roster records).isCameraActive
      = (if tab = s.activeTab then s.isCameraActive else false) := by
  unfold setActiveTab
  split
  · simp
  · cases tab <;>
      simp [(fetchEmployees_capture _ roster).1, (fetchEmployees_capture _ roster).2.1,
        (fetchEmployees_capture _ roster).2.2.1, (fetchAttendance_capture _ records).1,
        (fetchAttendance_capture _ records).2.1, (fetchAttendance_capture _ records).2.2.1]

/-- Claim C10. For every batch and every index `i` below its size, `removeImage(i)`
yields the batch without its `i`-th frame: the frames before it followed by the
frames after it, in their order, one frame fewer, in `capturedImages` and in
`enrollmentImages` alike; for an index at or beyond the size the list is unchanged. -/
theorem c10_removeImage_removes_ith (s : State) (i : Nat) :
    (i < s.capturedImages.length →
      (removeImage s i).capturedImages
        = s.capturedImages.take i ++ s.capturedImages.drop (i + 1) ∧
      (removeImage s i).capturedImages.length + 1 = s.capturedImages.length) ∧
    (i < s.enrollmentImages.length →
      (removeImage s i).enrollmentImages
        = s.enrollmentImages.take i ++ s.enrollmentImages.drop (i + 1) ∧
      (removeImage s i).enrollmentImages.length + 1 = s.enrollmentImages.length) ∧
    (s.capturedImages.length ≤ i → (removeImage s i).capturedImages = s.capturedImages) ∧
    (s.enrollmentImages.length ≤ i →
      (removeImage s i).enrollmentImages = s.enrollmentImages) := by
  refine ⟨fun h => ⟨?_, ?_⟩, fun h => ⟨?_, ?_⟩, fun h => ?_, fun h => ?_⟩
  · simp [removeImage, filterIndexNe_eq]
  · simp [removeImage, filterIndexNe_eq]; omega
  · simp [removeImage, filterIndexNe_eq]
  · simp [removeImage, filterIndexNe_eq]; omega
  · simp [removeImage, filterIndexNe_eq, List.take_of_length_le h,
      List.drop_of_length_le (Nat.le_succ_of_le h)]
  · simp [removeImage, filterIndexNe_eq, List.take_of_length_le h,
      List.drop_of_length_le (Nat.le_succ_of_le h)]

/-- Witness of C10: removing the middle one of three frames leaves the first and the
third, in that order; removing at index 3 leaves the three frames. -/
theorem c10_removeImage_removes_ith_witness :
    (removeImage (run init threeCaptures) 1).capturedImages.map (fun c => c.url)
      = ["blob:1", "blob:3"] ∧
    (removeImage (run init threeCaptures) 1).enrollmentImages.map (fun f => f.blob)
      = [11, 13] ∧
    (removeImage (run init threeCaptures) 1).capturedImages.length + 1 = 3 ∧
    (removeImage (run init threeCaptures) 3).capturedImages
      = (run init threeCaptures).capturedImages :=
  have h1 := c10_removeImage_removes_ith (run init threeCaptures) 1
  have h3 := c10_removeImage_removes_ith (run init threeCaptures) 3
  ⟨by rw [(h1.1 (by decide)).1]; decide, by rw [(h1.2.1 (by decide)).1]; decide,
    (h1.1 (by decide)).2, h3.2.2.1 (by decide)⟩

end AdminPanel

namespace AttendanceSystem

/-- Claim C8 as stated fails: after a failed check the credentials stay in the cell.
With a wrong password typed, `handleAdminLogin` sets the error and leaves
`adminCredentials` as entered. -/
theorem c8_failed_login_keeps_credentials :
    (handleAdminLogin wrongPassword).adminCredentials
      = { username := "admin", password := "letmein" } ∧
    (handleAdminLogin wrongPassword).adminCredentials ≠ { username := "", password := "" } ∧
    (handleAdminLogin wrongPassword).adminError = "Invalid username or password" := by
  decide

/-- Claim C8, amended.  After a call of `handleAdminLogin` whose check succeeds, the
credentials are cleared and the admin panel is shown; after a call whose check fails,
the credentials are left as entered and the error `Invalid username or password` is
set; closing the login dialog (`handleCloseAdminModal`) clears them. -/
theorem c8_credentials_cleared_on_success (s : State) :
    (s.adminCredentials = { username := "admin", password := "admin123" } →
      (handleAdminLogin s).adminCredentials = { username := "", password := "" } ∧
      showsAdminPanel (handleAdminLogin s) = true) ∧
    (s.adminCredentials ≠ { username := "admin", password := "admin123" } →
      (handleAdminLogin s).adminCredentials = s.adminCredentials ∧
      (handleAdminLogin s).adminError = "Invalid username or password") ∧
    (handleCloseAdminModal s).adminCredentials = { username := "", password := "" } := by
  refine ⟨fun h => ?_, fun h => ?_, rfl⟩
  · simp [handleAdminLogin, showsAdminPanel, h]
  · have hne : ¬ (s.adminCredentials.username = "admin" ∧
        s.adminCredentials.password = "admin123") := by
      intro hc
      apply h
      cases hcred : s.adminCredentials with
      | mk u p =>
        rw [hcred] at hc
        simp only at hc
        rw [hc.1, hc.2]
    simp [handleAdminLogin, hne]

/-- Witness of C8 amended: the accepted credentials are cleared, a wrong password is
kept. -/
theorem c8_credentials_cleared_on_success_witness :
    (handleAdminLogin loggingIn).adminCredentials = { username := "", password := "" } ∧
    (handleAdminLogin wrongPassword).adminCredentials = wrongPassword.adminCredentials :=
  ⟨((c8_credentials_cleared_on_success loggingIn).1 (by decide)).1,
    ((c8_credentials_cleared_on_success wrongPassword).2.1 (by decide)).1⟩

end AttendanceSystem

namespace AdminPanel

/-! ### A capture that takes place -/

theorem captureImage_lists (s : State) (blob now : Nat) (url : String)
    (htab : s.activeTab = .register) (hact : s.isCameraActive = true) :
    (captureImage s blob now url).capturedImages
      = s.capturedImages ++
          [{ file := { blob := blob, name := "capture_" ++ toString now ++ ".jpg" },
             url := url }] ∧
    (captureImage s blob now url).enrollmentImages
      = s.enrollmentImages ++
          [{ blob := blob, name := "capture_" ++ toString now ++ ".jpg" }] := by
  have hg : ¬ ((!videoMounted s || !canvasMounted s) = true) := by
    simp [videoMounted, canvasMounted, htab, hact]
  unfold captureImage
  rw [if_neg hg]
  exact toBlobCallback_lists s s.capturedImages.length blob now url

/-- With no callback pending and the camera running on the registration tab, a click
on the capture button followed by the run of its callback is `captureImage`. -/
theorem captureImage_eq_click_then_callback (s : State) (blob now : Nat) (url : String)
    (htab : s.activeTab = .register) (hact : s.isCameraActive = true)
    (hpending : s.pendingToBlob = []) :
    run s [.captureImage, .toBlobDone 0 blob now url] = captureImage s blob now url := by
  have hg : ¬ ((!videoMounted s || !canvasMounted s) = true) := by
    simp [videoMounted, canvasMounted, htab, hact]
  have hs : ({ s with pendingToBlob := [] } : State) = s := by
    cases s
    simp only at hpending
    simp [hpending]
  have hoff1 : offered s .captureImage = true := by simp [offered, htab, hact]
  have hcall : step s .captureImage
      = { s with pendingToBlob := [s.capturedImages.length] } := by
    show captureImageCall s = _
    unfold captureImageCall
    rw [if_neg hg, hpending]
    rfl
  have hoff2 : offered { s with pendingToBlob := [s.capturedImages.length] }
      (.toBlobDone 0 blob now url) = true := rfl
  have hdone : step { s with pendingToBlob := [s.capturedImages.length] }
      (.toBlobDone 0 blob now url)
      = toBlobCallback { s with pendingToBlob := [] } s.capturedImages.length blob now url :=
    rfl
  show run (if offered s .captureImage then step s .captureImage else s)
      [.toBlobDone 0 blob now url] = _
  rw [if_pos hoff1, hcall]
  show (if offered { s with pendingToBlob := [s.capturedImages.length] }
      (.toBlobDone 0 blob now url) then
        step { s with pendingToBlob := [s.capturedImages.length] }
          (.toBlobDone 0 blob now url)
      else { s with pendingToBlob := [s.capturedImages.length] }) = _
  rw [if_pos hoff2, hdone, hs]
  unfold captureImage
  rw [if_neg hg]

/-- Claim C11. For every batch and every index `i` below its size, `removeImage(i)`
followed by a capture restores the size of the batch, and the batch is then the
frames that remained after the removal, in their order, followed by the new frame, in
`capturedImages` and in `enrollmentImages` alike.  The capture follows the removal
directly when the camera is running, and after a restart of the camera when it is not
(a full batch has stopped it). -/
theorem c11_remove_then_capture (s t : State) (i blob now : Nat) (url : String)
    (htab : s.activeTab = .register)
    (ht : (t = removeImage s i ∧ s.isCameraActive = true) ∨
      (∃ stream, t = startCamera (removeImage s i) (.ok stream))) :
    (i < s.capturedImages.length →
      (captureImage t blob now url).capturedImages
        = (s.capturedImages.take i ++ s.capturedImages.drop (i + 1)) ++
            [{ file := { blob := blob, name := "capture_" ++ toString now ++ ".jpg" },
               url := url }] ∧
      (captureImage t blob now url).capturedImages.length = s.capturedImages.length) ∧
    (i < s.enrollmentImages.length →
      (captureImage t blob now url).enrollmentImages
        = (s.enrollmentImages.take i ++ s.enrollmentImages.drop (i + 1)) ++
            [{ blob := blob, name := "capture_" ++ toString now ++ ".jpg" }] ∧
      (captureImage t blob now url).enrollmentImages.length = s.enrollmentImages.length) := by
  have hlists : t.activeTab = .register ∧ t.isCameraActive = true ∧
      t.capturedImages = s.capturedImages.take i ++ s.capturedImages.drop (i + 1) ∧
      t.enrollmentImages = s.enrollmentImages.take i ++ s.enrollmentImages.drop (i + 1) := by
    rcases ht with ⟨rfl, hact⟩ | ⟨stream, rfl⟩
    · exact ⟨htab, hact, filterIndexNe_eq _ _, filterIndexNe_eq _ _⟩
    · exact ⟨htab, rfl, filterIndexNe_eq _ _, filterIndexNe_eq _ _⟩
  obtain ⟨h1, h2, h3, h4⟩ := hlists
  have h := captureImage_lists t blob now url h1 h2
  refine ⟨fun hi => ?_, fun hi => ?_⟩
  · have hc : (captureImage t blob now url).capturedImages
        = (s.capturedImages.take i ++ s.capturedImages.drop (i + 1)) ++
            [{ file := { blob := blob, name := "capture_" ++ toString now ++ ".jpg" },
               url := url }] := by
      rw [h.1, h3]
    refine ⟨hc, ?_⟩
    rw [hc]; simp; omega
  · have hc : (captureImage t blob now url).enrollmentImages
        = (s.enrollmentImages.take i ++ s.enrollmentImages.drop (i + 1)) ++
            [{ blob := blob, name := "capture_" ++ toString now ++ ".jpg" }] := by
      rw [h.2, h4]
    refine ⟨hc, ?_⟩
    rw [hc]; simp; omega

/-- Witness of C11: with the camera running and two frames captured, removing the
first frame and capturing again gives two frames, the new one last; from a full
batch, removing the first frame, restarting the camera and capturing gives five
frames again. -/
theorem c11_remove_then_capture_witness :
    (captureImage (removeImage (run init twoCaptures) 0) 13 3 "blob:3").capturedImages.map
        (fun c => c.url) = ["blob:2", "blob:3"] ∧
    (captureImage (removeImage (run init twoCaptures) 0) 13 3 "blob:3").enrollmentImages.length
      = (run init twoCaptures).enrollmentImages.length ∧
    (run init fiveCaptures).capturedImages.length = 5 ∧
    (captureImage (startCamera (removeImage (run init fiveCaptures) 0) (.ok secondCamera))
        16 6 "blob:6").capturedImages.length = (run init fiveCaptures).capturedImages.length :=
  have h := c11_remove_then_capture (run init twoCaptures)
    (removeImage (run init twoCaptures) 0) 0 13 3 "blob:3"
    (by decide) (Or.inl ⟨rfl, by decide⟩)
  have h5 := c11_remove_then_capture (run init fiveCaptures)
    (startCamera (removeImage (run init fiveCaptures) 0) (.ok secondCamera)) 0 16 6 "blob:6"
    (by decide) (Or.inr ⟨secondCamera, rfl⟩)
  ⟨by rw [(h.1 (by decide)).1]; decide, (h.2 (by decide)).2, by decide,
    (h5.1 (by decide)).2⟩

/-- Claim C12 fails on the code.  The test of line 105 reads the length of the batch
through the closure of the render in which the capture button was clicked.  With
three frames captured, two clicks before the first callback has run make both
callbacks read 3: each appends its frame, the batch reaches five frames, and neither
stops the camera nor sets the message.  When each callback runs before the next
click, the fifth capture does stop the camera and set the message. -/
theorem c12_stale_length_keeps_camera_running :
    (run init threeCaptures).capturedImages.length = 3 ∧
    (run init threeCaptures).isCameraActive = true ∧
    offered (step (run init threeCaptures) .captureImage) .captureImage = true ∧
    (run init doubleClickAtThree).capturedImages.length = 5 ∧
    (run init doubleClickAtThree).isCameraActive = true ∧
    (run init doubleClickAtThree).streamRef = some camera ∧
    (run init doubleClickAtThree).liveTracks = [7, 8] ∧
    (run init doubleClickAtThree).message = (run init threeCaptures).message ∧
    (run init doubleClickAtThree).message.text ≠ "5 images captured! Ready to register." ∧
    (run init fiveCaptures).capturedImages.length = 5 ∧
    (run init fiveCaptures).isCameraActive = false ∧
    (run init fiveCaptures).message.text = "5 images captured! Ready to register." := by
  decide

end AdminPanel

theorem stopTracks_idem (stream : MediaStream) (live : List Nat) :
    stopTracks stream (stopTracks stream live) = stopTracks stream live := by
  simp [stopTracks, List.filter_filter]

/-- Claim C13. `stopCamera` is idempotent in both screens.  In the admin panel, two
calls yield the state one call yields, and a call on an inactive session (no stream
held, `isCameraActive` false) changes nothing.  In the kiosk, two calls yield the
state one call yields, whether they run in the same render (the same closure) or
with a render in between (each call reads the current `stream`), and a call on a
session without stream changes nothing.  The functions are total: no call fails. -/
theorem c13_stopCamera_idempotent (a : AdminPanel.State) (k : AttendanceSystem.State)
    (closure : Option MediaStream) :
    AdminPanel.stopCamera (AdminPanel.stopCamera a) = AdminPanel.stopCamera a ∧
    (a.streamRef = none → a.isCameraActive = false → AdminPanel.stopCamera a = a) ∧
    AttendanceSystem.stopCamera closure (AttendanceSystem.stopCamera closure k)
      = AttendanceSystem.stopCamera closure k ∧
    AttendanceSystem.stopCamera (AttendanceSystem.stopCamera k.stream k).stream
        (AttendanceSystem.stopCamera k.stream k)
      = AttendanceSystem.stopCamera k.stream k ∧
    (k.stream = none → AttendanceSystem.stopCamera k.stream k = k) := by
  refine ⟨?_, ?_, ?_, ?_, ?_⟩
  · cases hs : a.streamRef <;> simp [AdminPanel.stopCamera, hs]
  · intro hs hact
    cases a
    simp only at hs hact
    simp [AdminPanel.stopCamera, hs, hact]
  · cases closure with
    | none => rfl
    | some st => simp [AttendanceSystem.stopCamera, stopTracks_idem]
  · cases hs : k.stream with
    | none => simp [AttendanceSystem.stopCamera, hs]
    | some st => simp [AttendanceSystem.stopCamera]
  · intro hs
    rw [hs]
    rfl

/-- Witness of C13: with the camera running, a second `stopCamera` changes nothing
more, in both screens; on the initial, inactive session `stopCamera` changes
nothing. -/
theorem c13_stopCamera_idempotent_witness :
    (AdminPanel.run AdminPanel.init AdminPanel.twoCaptures).isCameraActive = true ∧
    AdminPanel.stopCamera
        (AdminPanel.stopCamera (AdminPanel.run AdminPanel.init AdminPanel.twoCaptures))
      = AdminPanel.stopCamera (AdminPanel.run AdminPanel.init AdminPanel.twoCaptures) ∧
    AdminPanel.stopCamera AdminPanel.init = AdminPanel.init ∧
    AttendanceSystem.stopCamera (some camera)
        (AttendanceSystem.stopCamera (some camera) (AttendanceSystem.mount (.ok camera)))
      = AttendanceSystem.stopCamera (some camera) (AttendanceSystem.mount (.ok camera)) ∧
    AttendanceSystem.stopCamera AttendanceSystem.init.stream AttendanceSystem.init
      = AttendanceSystem.init :=
  have h := c13_stopCamera_idempotent
    (AdminPanel.run AdminPanel.init AdminPanel.twoCaptures)
    (AttendanceSystem.mount (.ok camera)) (some camera)
  have h0 := c13_stopCamera_idempotent AdminPanel.init AttendanceSystem.init none
  ⟨by decide, h.1, h0.2.1 (by decide) (by decide), h.2.2.1, h0.2.2.2.2 (by decide)⟩

namespace AdminPanel

/-- Claim C14. For every state with at least three images, when the server answers
the registration request with success, `handleRegisterEmployee` leaves both
`capturedImages` and `enrollmentImages` empty, resets every field of the form to the
empty string, and refreshes the roster: the requests it sends are the registration
followed by `GET /admin/employees`, whose data, when it arrives, becomes
`employees`. -/
theorem c14_success_clears_batch_and_form (s : State) (roster : Fetched (List Employee))
    (h : 3 ≤ s.enrollmentImages.length) :
    (handleRegisterEmployee s .ok roster).capturedImages = [] ∧
    (handleRegisterEmployee s .ok roster).enrollmentImages = [] ∧
    (handleRegisterEmployee s .ok roster).newEmployee
      = { employee_id := "", full_name := "", email := "", department := "",
          position := "" } ∧
    sent s (handleRegisterEmployee s .ok roster)
      = [.registerEmployee s.newEmployee s.enrollmentImages, .getEmployees] ∧
    (∀ data, roster = .ok data → (handleRegisterEmployee s .ok roster).employees = data) := by
  have hlt : ¬ s.enrollmentImages.length < 3 := by omega
  unfold handleRegisterEmployee sent
  rw [if_neg hlt]
  cases roster <;> simp [fetchEmployees, emptyEmployee]

/-- Witness of C14: three captures, then a successful registration. -/
theorem c14_success_clears_batch_and_form_witness :
    3 ≤ (run init threeCaptures).enrollmentImages.length ∧
    (handleRegisterEmployee (run init threeCaptures) .ok (.ok [])).capturedImages = [] ∧
    (handleRegisterEmployee (run init threeCaptures) .ok (.ok [])).enrollmentImages = [] ∧
    sent (run init threeCaptures) (handleRegisterEmployee (run init threeCaptures) .ok (.ok []))
      = [.registerEmployee (run init threeCaptures).newEmployee
          (run init threeCaptures).enrollmentImages, .getEmployees] :=
  have h := c14_success_clears_batch_and_form (run init threeCaptures) (.ok []) (by decide)
  ⟨by decide, h.1, h.2.1, h.2.2.2.1⟩

/-- Claim C15 as stated fails for a failure that carries the empty string as its
detail: `detail || 'Failed to register employee'` takes the empty string for absent,
so the message is the generic text and not the detail. -/
theorem c15_empty_detail_gets_generic_text :
    3 ≤ (run init threeCaptures).enrollmentImages.length ∧
    (handleRegisterEmployee (run init threeCaptures) (.failed (some "")) .failed).message
      = { type := "error", text := "Failed to register employee" } ∧
    (handleRegisterEmployee (run init threeCaptures) (.failed (some "")) .failed).message.text
      ≠ "" := by
  decide

/-- Claim C15, amended.  For every registration request that fails,
`handleRegisterEmployee` sets an error message whose text is the detail of the
server, verbatim, when the failure carries a detail other than the empty string, and
`Failed to register employee` otherwise (no response, no detail, or an empty
detail); `capturedImages`, `enrollmentImages` and `newEmployee` are as they were
before the submission. -/
theorem c15_failure_keeps_batch_and_form (s : State) (detail : Option String)
    (roster : Fetched (List Employee)) (h : 3 ≤ s.enrollmentImages.length) :
    (handleRegisterEmployee s (.failed detail) roster).message.type = "error" ∧
    (∀ d, detail = some d → d ≠ "" →
      (handleRegisterEmployee s (.failed detail) roster).message.text = d) ∧
    (detail = none ∨ detail = some "" →
      (handleRegisterEmployee s (.failed detail) roster).message.text
        = "Failed to register employee") ∧
    (handleRegisterEmployee s (.failed detail) roster).capturedImages = s.capturedImages ∧
    (handleRegisterEmployee s (.failed detail) roster).enrollmentImages
      = s.enrollmentImages ∧
    (handleRegisterEmployee s (.failed detail) roster).newEmployee = s.newEmployee := by
  have hlt : ¬ s.enrollmentImages.length < 3 := by omega
  unfold handleRegisterEmployee
  rw [if_neg hlt]
  refine ⟨rfl, ?_, ?_, rfl, rfl, rfl⟩
  · intro d hd hne
    simp [orDefault, hd, hne]
  · intro hd
    rcases hd with hd | hd <;> simp [orDefault, hd]

/-- Witness of C15 amended: a detail of the server is shown verbatim, a transport
failure gets the generic text, and the three frames are kept. -/
theorem c15_failure_keeps_batch_and_form_witness :
    (handleRegisterEmployee (run init threeCaptures)
        (.failed (some "Employee ID already exists")) .failed).message.text
      = "Employee ID already exists" ∧
    (handleRegisterEmployee (run init threeCaptures) (.failed none) .failed).message.text
      = "Failed to register employee" ∧
    (handleRegisterEmployee (run init threeCaptures) (.failed none) .failed).capturedImages
      = (run init threeCaptures).capturedImages :=
  have h1 := c15_failure_keeps_batch_and_form (run init threeCaptures)
    (some "Employee ID already exists") .failed (by decide)
  have h2 := c15_failure_keeps_batch_and_form (run init threeCaptures) none .failed
    (by decide)
  ⟨h1.2.1 _ rfl (by decide), h2.2.2.1 (Or.inl rfl), h2.2.2.2.1⟩

end AdminPanel

namespace AttendanceSystem

/-- Claim C16 as stated fails for a failure that carries the empty string as its
detail: `detail || 'Failed to mark attendance. Face not recognized.'` takes the empty
string for absent, so the message shown is the default text and not the detail. -/
theorem c16_empty_detail_gets_default_text :
    showsAdminPanel (mount (.ok camera)) = false ∧
    (captureAndMarkAttendance (mount (.ok camera)) (.failed (some ""))).result
      = some (.failure "Failed to mark attendance. Face not recognized.") ∧
    (captureAndMarkAttendance (mount (.ok camera)) (.failed (some ""))).result
      ≠ some (.failure "") := by
  decide

/-- Claim C16, amended.  On the kiosk screen, for every success response the result
is the success object carrying the `employee_name`, `employee_id`, `timestamp`,
`status`, `status_message` and `similarity` of the response, unchanged; for every
failure the result is a failure object whose message is the detail of the server when
the failure carries a detail other than the empty string, and
`Failed to mark attendance. Face not recognized.` otherwise (no response, no detail,
or an empty detail); in both cases the result display is opened and `loading` ends
false. -/
theorem c16_answer_mapped_onto_result (s : State) (h : showsAdminPanel s = false) :
    (∀ data : MarkResponse,
      (captureAndMarkAttendance s (.ok data)).result
        = some (.success data.employee_name data.employee_id data.timestamp data.status
            data.status_message data.similarity) ∧
      (captureAndMarkAttendance s (.ok data)).showResultModal = true ∧
      (captureAndMarkAttendance s (.ok data)).loading = false) ∧
    (∀ detail : Option String,
      (∀ d, detail = some d → d ≠ "" →
        (captureAndMarkAttendance s (.failed detail)).result = some (.failure d)) ∧
      (detail = none ∨ detail = some "" →
        (captureAndMarkAttendance s (.failed detail)).result
          = some (.failure "Failed to mark attendance. Face not recognized.")) ∧
      (captureAndMarkAttendance s (.failed detail)).showResultModal = true ∧
      (captureAndMarkAttendance s (.failed detail)).loading = false) := by
  have hm : refsMounted s = true := by simp [refsMounted, h]
  refine ⟨fun data => ?_, fun detail => ⟨?_, ?_, ?_, ?_⟩⟩
  · simp [captureAndMarkAttendance, hm]
  · intro d hd hne
    simp [captureAndMarkAttendance, hm, orDefault, hd, hne]
  · intro hd
    rcases hd with hd | hd <;> simp [captureAndMarkAttendance, hm, orDefault, hd]
  · simp [captureAndMarkAttendance, hm]
  · simp [captureAndMarkAttendance, hm]

/-- Witness of C16 amended: the answer of a late arrival is shown with status `late`;
a rejection is shown with the detail of the server. -/
theorem c16_answer_mapped_onto_result_witness :
    (captureAndMarkAttendance (mount (.ok camera)) (.ok lateResponse)).result
      = some (.success "Jane Roe" "EMP007" "2026-11-04T09:20:00" "late" "Late arrival"
          lateResponse.similarity) ∧
    (captureAndMarkAttendance (mount (.ok camera)) (.ok lateResponse)).showResultModal = true ∧
    (captureAndMarkAttendance (mount (.ok camera)) (.failed (some "No face detected"))).result
      = some (.failure "No face detected") ∧
    (captureAndMarkAttendance (mount (.ok camera)) (.failed none)).result
      = some (.failure "Failed to mark attendance. Face not recognized.") :=
  have h := c16_answer_mapped_onto_result (mount (.ok camera)) (by decide)
  ⟨(h.1 lateResponse).1, (h.1 lateResponse).2.1,
    (h.2 (some "No face detected")).1 _ rfl (by decide), (h.2 none).2.1 (Or.inl rfl)⟩

/-- Claim C17. A verification attempt never touches the camera session: for every
state of the kiosk and every outcome of the submission (success, rejection by the
server, failure of the transport), the stream handle, the flag `cameraActive` and the
running tracks after `captureAndMarkAttendance` are what they were before it. -/
theorem c17_verification_leaves_session (s : State) (answer : Marked) :
    (captureAndMarkAttendance s answer).stream = s.stream ∧
    (captureAndMarkAttendance s answer).cameraActive = s.cameraActive ∧
    (captureAndMarkAttendance s answer).liveTracks = s.liveTracks := by
  unfold captureAndMarkAttendance
  split
  · cases answer <;> exact ⟨rfl, rfl, rfl⟩
  · exact ⟨rfl, rfl, rfl⟩

end AttendanceSystem

/-- Claim C18 fails on the code of the kiosk.  When `getUserMedia` is rejected, the
kiosk stays in its initial state, whatever the reason: the reason goes to the console
and into no cell, so the screen keeps showing its loading placeholder.  The admin
panel, in the same situation, stays inactive and puts the reason into `message`. -/
theorem c18_kiosk_swallows_camera_failure :
    AttendanceSystem.mount (.error "Permission denied") = AttendanceSystem.init ∧
    AttendanceSystem.mount (.error "Permission denied")
      = AttendanceSystem.mount (.error "Requested device not found") ∧
    (AttendanceSystem.mount (.error "Permission denied")).stream = none ∧
    (AttendanceSystem.mount (.error "Permission denied")).cameraActive = false ∧
    (AdminPanel.startCamera AdminPanel.init (.error "Permission denied")).message
      = { type := "error",
          text := "Failed to access camera: Permission denied. Please check browser permissions." } ∧
    (AdminPanel.startCamera AdminPanel.init (.error "Permission denied")).streamRef = none ∧
    (AdminPanel.startCamera AdminPanel.init (.error "Permission denied")).isCameraActive
      = false := by
  decide

namespace AdminPanel

@[simp] theorem stopCamera_objectUrls (s : State) :
    (stopCamera s).objectUrls = s.objectUrls := by
  unfold stopCamera; split <;> rfl

theorem fetchEmployees_objectUrls (s : State) (r : Fetched (List Employee)) :
    (fetchEmployees s r).objectUrls = s.objectUrls := by
  cases r <;> rfl

theorem fetchAttendance_objectUrls (s : State) (r : Fetched (List AttendanceRecord)) :
    (fetchAttendance s r).objectUrls = s.objectUrls := by
  cases r <;> rfl

/-- Claim C19 as stated fails: nothing releases an object URL.  After three captures,
removing the second frame leaves its URL live although the frame is no longer in the
batch, and a reset empties the batch and leaves all three URLs live. -/
theorem c19_discarded_frame_keeps_url :
    (run init threeCaptures).objectUrls = ["blob:1", "blob:2", "blob:3"] ∧
    "blob:2" ∉ (removeImage (run init threeCaptures) 1).capturedImages.map (fun c => c.url) ∧
    "blob:2" ∈ (removeImage (run init threeCaptures) 1).objectUrls ∧
    (resetCapture (run init threeCaptures)).capturedImages = [] ∧
    (resetCapture (run init threeCaptures)).objectUrls = ["blob:1", "blob:2", "blob:3"] := by
  decide

/-- Claim C19, amended.  A frame that is discarded keeps its display handle: for
every state, `removeImage` and `resetCapture` leave the live object URLs as they
were, and no event of the panel releases an object URL: the URLs live before an
event are still live, in the same order, after it. -/
theorem c19_no_object_url_released (s : State) (i : Nat) (a : Action) :
    (removeImage s i).objectUrls = s.objectUrls ∧
    (resetCapture s).objectUrls = s.objectUrls ∧
    s.objectUrls <+: (step s a).objectUrls := by
  refine ⟨rfl, by simp [resetCapture], ?_⟩
  cases a with
  | startCamera => exact List.prefix_refl _
  | getUserMediaSettled r => cases r <;> exact List.prefix_refl _
  | captureImage =>
    show s.objectUrls <+: (captureImageCall s).objectUrls
    unfold captureImageCall
    split <;> exact List.prefix_refl _
  | toBlobDone k blob now url =>
    show s.objectUrls <+: (toBlobDone s k blob now url).objectUrls
    unfold toBlobDone
    split
    · exact List.prefix_refl _
    · unfold toBlobCallback
      split <;> simp
  | stopCamera => simp [step]
  | removeImage index => exact List.prefix_refl _
  | resetCapture => simp [step, resetCapture]
  | setNewEmployee e => exact List.prefix_refl _
  | submit post roster =>
    show s.objectUrls <+: (handleRegisterEmployee s post roster).objectUrls
    unfold handleRegisterEmployee
    split
    · exact List.prefix_refl _
    · cases post with
      | failed detail => exact List.prefix_refl _
      | ok => simp [fetchEmployees_objectUrls]
  | setActiveTab tab roster records =>
    show s.objectUrls <+: (setActiveTab s tab roster records).objectUrls
    unfold setActiveTab
    split
    · exact List.prefix_refl _
    · cases tab <;> simp [fetchEmployees_objectUrls, fetchAttendance_objectUrls]
  | otherTab employees attendance dateFilter loading message more =>
    exact List.prefix_refl _

end AdminPanel

namespace AdminPanel

theorem columns_csvRow (locale : Locale) (record : AttendanceRecord) :
    columns (csvRow locale record)
      = (locale.toLocaleDateString record.timestamp).toList.count ',' +
        (locale.toLocaleTimeString record.timestamp).toList.count ',' +
        record.employee_id.toList.count ',' + record.employee_name.toList.count ',' +
        record.status.toList.count ',' + 5 := by
  have hc : (",".toList).count ',' = 1 := by decide
  simp only [columns, csvRow, joinComma, String.intercalate, String.intercalate.go,
    String.toList, String.data_append, List.count_append] at hc ⊢
  omega

/-- Claim C20 fails on the code for a record with a comma in one of its values: the
values are joined by commas without quoting.  The header has five columns; the row of
a record whose employee name is `Doe, John` has at least six in every locale, and
exactly six in the locale `en-US`, where the text `exportAttendance` exports is the
header line followed by the line `11/4/2026,9:00:00 AM,EMP001,Doe, John,late`. -/
theorem c20_comma_in_name_adds_column (locale : Locale) :
    csvLines locale [commaRecord]
      = ["Date,Time,Employee ID,Employee Name,Status", csvRow locale commaRecord] ∧
    columns "Date,Time,Employee ID,Employee Name,Status" = 5 ∧
    6 ≤ columns (csvRow locale commaRecord) ∧
    textLines (exportAttendance commaLoaded enUS "blob:csv").2.content
      = ["Date,Time,Employee ID,Employee Name,Status",
         "11/4/2026,9:00:00 AM,EMP001,Doe, John,late"] ∧
    columns "11/4/2026,9:00:00 AM,EMP001,Doe, John,late" = 6 := by
  refine ⟨by simp [csvLines, joinComma, String.intercalate, String.intercalate.go],
    by decide, ?_, by decide, by decide⟩
  rw [columns_csvRow]
  have hn : commaRecord.employee_name.toList.count ',' = 1 := by decide
  omega

end AdminPanel

end Attendance
